import Mathlib

/-!
Shallow embedding of `src/carbon-main-agent.py`, the single Lambda handler of
this repository.  External collaborators (the Bedrock inference endpoint, the
calculation Lambda, the SQS queue and the DynamoDB table) are modelled as an
oracle environment `Env`; every call a run makes to a collaborator is recorded
in a `Trace`, so that claims about which collaborators are invoked become
statements about the trace of `lambda_handler`.
-/

set_option autoImplicit false

/-- Python substring test `pat in (list form)`: does `pat` occur as a
contiguous sublist of `l`? -/
def listHasSub (pat : List Char) : List Char → Bool
  | [] => pat.isEmpty
  | c :: rest => pat.isPrefixOf (c :: rest) || listHasSub pat rest

/-- Python `pat in s` (case-sensitive substring containment). -/
def strContains (s pat : String) : Bool :=
  listHasSub pat.toList s.toList

/-- Python `s.lower()` (the inputs involved are ASCII). -/
def lowerStr (s : String) : String :=
  String.mk (s.toList.map Char.toLower)

/-- One hexadecimal digit character, lowercase, as Python renders UUIDs. -/
def hexDigitChar (n : Nat) : Char :=
  if n < 10 then Char.ofNat (48 + n) else Char.ofNat (87 + n)

/-- Big-endian list of `k` hexadecimal digit characters of `n`. -/
def hexNibbles : Nat → Nat → List Char
  | 0, _ => []
  | Nat.succ k, n => hexNibbles k (n / 16) ++ [hexDigitChar (n % 16)]

/-- Model of Python `str(uuid.uuid4())`: the canonical 8-4-4-4-12 hyphenated
hexadecimal rendering of a 128-bit random value drawn from the seed. -/
def uuid4Str (seed : Nat) : String :=
  let h := hexNibbles 32 seed
  String.mk (h.take 8 ++ '-' :: (h.drop 8).take 4 ++ '-' :: (h.drop 12).take 4
    ++ '-' :: (h.drop 16).take 4 ++ '-' :: h.drop 20)

/-- The DynamoDB item written by `store_conversation` (lines 23-29). -/
structure ConversationRecord where
  conversationId : String
  timestamp : String
  userInput : String
  response : String
  type : String
deriving DecidableEq, Repr

/-- The SQS message body built by `enqueue_request` (lines 39-43). -/
structure QueuedRequest where
  prompt : String
  conversation_id : String
  timestamp : String
deriving DecidableEq, Repr

/-- The `status` tag of an inference result: `'direct'` or `'queued'`. -/
inductive Status where
  | direct
  | queued
deriving DecidableEq, Repr

/-- The dict returned by `invoke_bedrock_with_queue` on success. -/
structure InvokeResult where
  status : Status
  response : String
deriving DecidableEq, Repr

/-- Oracle environment for the external collaborators: what the Bedrock model
answers for each prompt (or which exception text it raises), what the
calculation Lambda returns for each query (or which exception it raises),
whether the SQS publish and the DynamoDB put succeed, the wall clock in
milliseconds, and the randomness behind `uuid.uuid4()`. -/
structure Env where
  bedrockResult : String → Except String String
  calcResult : String → Except String String
  sqsOk : Bool
  dynamoOk : Bool
  nowMs : Nat
  uuidSeed : Nat

/-- Record of the collaborator calls one handler run performs. -/
structure Trace where
  calcCalls : List String
  bedrockCalls : List String
  queueAttempts : List QueuedRequest
  queuePublished : List QueuedRequest
  dynamoAttempts : List ConversationRecord
  dynamoWrites : List ConversationRecord
deriving DecidableEq, Repr

/-- The empty trace: no collaborator was called. -/
def emptyTrace : Trace := ⟨[], [], [], [], [], []⟩

/-- Concatenation of two traces, in execution order. -/
def Trace.app (a b : Trace) : Trace :=
  ⟨a.calcCalls ++ b.calcCalls, a.bedrockCalls ++ b.bedrockCalls,
   a.queueAttempts ++ b.queueAttempts, a.queuePublished ++ b.queuePublished,
   a.dynamoAttempts ++ b.dynamoAttempts, a.dynamoWrites ++ b.dynamoWrites⟩

/-- `store_conversation` (lines 17-34): builds the item and attempts the
DynamoDB `put_item`; any exception is caught, logged and swallowed, so the
function never raises.  The trace records the attempted put and, when DynamoDB
succeeds, the landed write. -/
def store_conversation (env : Env) (conversation_id user_input response : String) : Trace :=
  let item : ConversationRecord :=
    ⟨conversation_id, toString env.nowMs, user_input, response, "conversation"⟩
  if env.dynamoOk then ⟨[], [], [], [], [item], [item]⟩
  else ⟨[], [], [], [], [item], []⟩

/-- `enqueue_request` (lines 36-58): builds the message body and attempts the
SQS `send_message`; returns `true` on success and `false` when the publish
raised (the exception is caught and logged).  The trace records the attempt
always and the published message only on success. -/
def enqueue_request (env : Env) (prompt conversation_id : String) : Bool × Trace :=
  let message_body : QueuedRequest := ⟨prompt, conversation_id, toString env.nowMs⟩
  if env.sqsOk then (true, ⟨[], [], [message_body], [message_body], [], []⟩)
  else (false, ⟨[], [], [message_body], [], [], []⟩)

/-- The hard-coded fallback message of line 92. -/
def fallbackMessage : String :=
  "Your request has been queued due to high demand. You'll receive a response shortly via our notification system. In the meantime, here's some general guidance: Carbon emissions from electricity usage depend on your region's energy mix and the time of consumption. Consider implementing energy efficiency measures and shifting usage to off-peak hours when possible."

/-- `invoke_bedrock_with_queue` (lines 60-94): one direct Bedrock call; on an
exception whose text contains `"ThrottlingException"` it attempts one queue
publish, returning the `'queued'` fallback on publish success and re-raising
the original exception on publish failure; any other exception is re-raised
immediately.  `Except.error e` models an uncaught exception with text `e`. -/
def invoke_bedrock_with_queue (env : Env) (prompt conversation_id : String) :
    Except String InvokeResult × Trace :=
  match env.bedrockResult prompt with
  | Except.ok text =>
      (Except.ok ⟨Status.direct, text⟩, ⟨[], [prompt], [], [], [], []⟩)
  | Except.error e =>
      if strContains e "ThrottlingException" then
        match enqueue_request env prompt conversation_id with
        | (true, t) =>
            (Except.ok ⟨Status.queued, fallbackMessage⟩,
             Trace.app ⟨[], [prompt], [], [], [], []⟩ t)
        | (false, t) =>
            (Except.error e, Trace.app ⟨[], [prompt], [], [], [], []⟩ t)
      else
        (Except.error e, ⟨[], [prompt], [], [], [], []⟩)

/-- `invoke_calculation_agent` (lines 96-107): one call to the calculation
Lambda; an exception is logged and re-raised, so the result passes through. -/
def invoke_calculation_agent (env : Env) (query : String) :
    Except String String × Trace :=
  (env.calcResult query, ⟨[query], [], [], [], [], []⟩)

/-- The parsed JSON body of the inbound event: the two fields the handler
reads, each possibly absent. -/
structure BodyObj where
  input : Option String
  conversationId : Option String
deriving DecidableEq, Repr

/-- An inbound event: `body` is absent (Python defaults to `'{}'`, which
parses to the empty object) or a raw string whose `json.loads` result is
either a parse exception with its message or the parsed object. -/
structure Event where
  body : Option (Except String BodyObj)
deriving Repr

/-- The HTTP-shaped response body: either the success dict of lines 146-150 or
the error dict of lines 120 and 157. -/
inductive RespBody where
  | success (response : String) (conversationId : String) (status : Status)
  | failure (error : String)
deriving DecidableEq, Repr

/-- The `conversationId` field of a response body, when present. -/
def RespBody.convId : RespBody → Option String
  | RespBody.success _ c _ => some c
  | RespBody.failure _ => none

/-- A structured handler response: status code, headers dict (in insertion
order) and body. -/
structure Response where
  statusCode : Nat
  headers : List (String × String)
  body : RespBody
deriving DecidableEq, Repr

/-- The `Content-Type` header present on every response. -/
def jsonHeader : String × String := ("Content-Type", "application/json")

/-- The permissive cross-origin header of line 144. -/
def corsHeader : String × String := ("Access-Control-Allow-Origin", "*")

/-- The 400 validation response of lines 117-121. -/
def resp400 (msg : String) : Response := ⟨400, [jsonHeader], RespBody.failure msg⟩

/-- The 500 server-error response of lines 154-158. -/
def resp500 (msg : String) : Response := ⟨500, [jsonHeader], RespBody.failure msg⟩

/-- The 200 success response of lines 140-151. -/
def resp200 (response conversation_id : String) (status : Status) : Response :=
  ⟨200, [jsonHeader, corsHeader], RespBody.success response conversation_id status⟩

/-- Lines 124-130: the keyword classification and prompt composition.  On the
calculation-augmented path the calculation agent is called once; its rendered
result is embedded in the explanation prompt, and on a calculation exception
the generic guidance prompt is composed instead. -/
def composePrompt (env : Env) (user_input : String) : String × Trace :=
  if strContains (lowerStr user_input) "carbon"
      || strContains (lowerStr user_input) "emission" then
    match invoke_calculation_agent env user_input with
    | (Except.ok calc_results, t) =>
        ("Explain these carbon emission calculation results briefly and clearly: "
          ++ calc_results, t)
    | (Except.error _, t) =>
        ("Provide general guidance about carbon emissions for " ++ user_input
          ++ ". Keep it brief.", t)
  else (user_input, emptyTrace)

/-- `lambda_handler` (lines 109-158).  The outer try/except turns any uncaught
exception (JSON parse failure, non-throttle Bedrock failure, throttle with
failed queue publish) into the 500 response carrying the exception's text. -/
def lambda_handler (env : Env) (event : Event) : Response × Trace :=
  match event.body.getD (Except.ok ⟨none, none⟩) with
  | Except.error e => (resp500 e, emptyTrace)
  | Except.ok b =>
    let user_input := b.input.getD ""
    let conversation_id := b.conversationId.getD (uuid4Str env.uuidSeed)
    if user_input = "" then
      (resp400 "Input is required", emptyTrace)
    else
      match composePrompt env user_input with
      | (prompt, t1) =>
        match invoke_bedrock_with_queue env prompt conversation_id with
        | (Except.error e, t2) => (resp500 e, Trace.app t1 t2)
        | (Except.ok result, t2) =>
          let t3 :=
            if result.status = Status.direct then
              store_conversation env conversation_id user_input result.response
            else emptyTrace
          (resp200 result.response conversation_id result.status,
           Trace.app (Trace.app t1 t2) t3)

/-- `env` with the DynamoDB success flag replaced: the same world except that
the persistence write fails (or succeeds) differently. -/
def withDynamo (env : Env) (b : Bool) : Env :=
  ⟨env.bedrockResult, env.calcResult, env.sqsOk, b, env.nowMs, env.uuidSeed⟩

/-- A world where every collaborator succeeds. -/
def envDirect : Env :=
  ⟨fun _ => Except.ok "MODEL ANSWER", fun _ => Except.ok "calc ok", true, true, 5, 7⟩

/-- A world where Bedrock raises a throttling exception and SQS is healthy. -/
def envThrottle : Env :=
  ⟨fun _ => Except.error "ThrottlingException: Rate exceeded",
   fun _ => Except.ok "calc ok", true, true, 5, 7⟩

/-- A world where Bedrock raises a throttling exception and SQS also fails. -/
def envThrottleQFail : Env :=
  ⟨fun _ => Except.error "ThrottlingException: Rate exceeded",
   fun _ => Except.ok "calc ok", false, true, 5, 7⟩

/-- A world where the calculation Lambda raises a timeout. -/
def envCalcFailA : Env :=
  ⟨fun _ => Except.ok "MODEL ANSWER", fun _ => Except.error "Task timed out", true, true, 5, 7⟩

/-- Like `envCalcFailA` but the calculation Lambda raises a different error. -/
def envCalcFailB : Env :=
  ⟨fun _ => Except.ok "MODEL ANSWER", fun _ => Except.error "AccessDenied", true, true, 5, 7⟩

/-- Rendering `k` hexadecimal nibbles always yields `k` characters. -/
theorem hexNibbles_length (k : Nat) : ∀ n, (hexNibbles k n).length = k := by
  induction k with
  | zero => intro n; rfl
  | succ k ih => intro n; simp [hexNibbles, ih]

/-- A rendered UUID4 string has the canonical 36-character length. -/
theorem uuid4Str_length (seed : Nat) : (uuid4Str seed).length = 36 := by
  simp [uuid4Str, String.length, hexNibbles_length]

/-- A rendered UUID4 string is never empty. -/
theorem uuid4Str_ne_empty (seed : Nat) : uuid4Str seed ≠ "" := by
  intro h
  have h36 := uuid4Str_length seed
  rw [h] at h36
  simp [String.length] at h36

/-- A successful Bedrock call yields a `direct` result and only the one
Bedrock call in the trace. -/
theorem bedrock_ok {env : Env} {prompt text : String} (conversation_id : String)
    (hb : env.bedrockResult prompt = Except.ok text) :
    invoke_bedrock_with_queue env prompt conversation_id
      = (Except.ok ⟨Status.direct, text⟩, ⟨[], [prompt], [], [], [], []⟩) := by
  unfold invoke_bedrock_with_queue
  rw [hb]

/-- A throttling failure with a healthy queue yields the `queued` fallback and
exactly one publish attempt, which lands. -/
theorem bedrock_throttle_qok {env : Env} {prompt e : String} (conversation_id : String)
    (hb : env.bedrockResult prompt = Except.error e)
    (ht : strContains e "ThrottlingException" = true) (hs : env.sqsOk = true) :
    invoke_bedrock_with_queue env prompt conversation_id
      = (Except.ok ⟨Status.queued, fallbackMessage⟩,
         ⟨[], [prompt], [⟨prompt, conversation_id, toString env.nowMs⟩],
          [⟨prompt, conversation_id, toString env.nowMs⟩], [], []⟩) := by
  unfold invoke_bedrock_with_queue enqueue_request
  rw [hb]
  simp [ht, hs, Trace.app]

/-- A throttling failure with a failing queue re-raises the original exception
after exactly one publish attempt, which does not land. -/
theorem bedrock_throttle_qfail {env : Env} {prompt e : String} (conversation_id : String)
    (hb : env.bedrockResult prompt = Except.error e)
    (ht : strContains e "ThrottlingException" = true) (hs : env.sqsOk = false) :
    invoke_bedrock_with_queue env prompt conversation_id
      = (Except.error e,
         ⟨[], [prompt], [⟨prompt, conversation_id, toString env.nowMs⟩], [], [], []⟩) := by
  unfold invoke_bedrock_with_queue enqueue_request
  rw [hb]
  simp [ht, hs, Trace.app]

/-- A non-throttling failure is re-raised immediately with no queue access. -/
theorem bedrock_other {env : Env} {prompt e : String} (conversation_id : String)
    (hb : env.bedrockResult prompt = Except.error e)
    (ht : strContains e "ThrottlingException" = false) :
    invoke_bedrock_with_queue env prompt conversation_id
      = (Except.error e, ⟨[], [prompt], [], [], [], []⟩) := by
  unfold invoke_bedrock_with_queue
  rw [hb]
  simp [ht]

/-- C1: when the Bedrock call fails with a throttling exception (text contains
the marker), exactly one queue publish is attempted; on publish success the
result is status `queued` with the fixed fallback message, on publish failure
the original exception is re-raised; a non-throttling failure is re-raised
immediately with no publish attempt. -/
theorem c1_throttle_fallback (env : Env) (prompt conversation_id e : String)
    (hb : env.bedrockResult prompt = Except.error e) :
    (strContains e "ThrottlingException" = true →
      (invoke_bedrock_with_queue env prompt conversation_id).2.queueAttempts
        = [⟨prompt, conversation_id, toString env.nowMs⟩]
      ∧ (env.sqsOk = true →
          (invoke_bedrock_with_queue env prompt conversation_id).1
            = Except.ok ⟨Status.queued, fallbackMessage⟩)
      ∧ (env.sqsOk = false →
          (invoke_bedrock_with_queue env prompt conversation_id).1 = Except.error e))
    ∧ (strContains e "ThrottlingException" = false →
        (invoke_bedrock_with_queue env prompt conversation_id).1 = Except.error e
        ∧ (invoke_bedrock_with_queue env prompt conversation_id).2.queueAttempts = []) := by
  cases ht : strContains e "ThrottlingException" with
  | false =>
    rw [bedrock_other conversation_id hb ht]
    simp
  | true =>
    cases hs : env.sqsOk with
    | true => rw [bedrock_throttle_qok conversation_id hb ht hs]; simp
    | false => rw [bedrock_throttle_qfail conversation_id hb ht hs]; simp

/-- C1 witness: concrete throttling worlds exercising both queue outcomes. -/
theorem c1_throttle_fallback_witness :
    strContains "ThrottlingException: Rate exceeded" "ThrottlingException" = true
      ∧ (invoke_bedrock_with_queue envThrottle "Hello" "cid-1").1
          = Except.ok ⟨Status.queued, fallbackMessage⟩
      ∧ (invoke_bedrock_with_queue envThrottleQFail "Hello" "cid-1").1
          = Except.error "ThrottlingException: Rate exceeded" :=
  ⟨by decide,
   ((c1_throttle_fallback envThrottle "Hello" "cid-1"
      "ThrottlingException: Rate exceeded" rfl).1 (by decide)).2.1 rfl,
   ((c1_throttle_fallback envThrottleQFail "Hello" "cid-1"
      "ThrottlingException: Rate exceeded" rfl).1 (by decide)).2.2 rfl⟩

/-- Keyword hit with a successful calculation: the explanation prompt embeds
the calculation output, and the trace holds the single calculation call. -/
theorem composePrompt_pos_ok {env : Env} {u calc_results : String}
    (hk : (strContains (lowerStr u) "carbon" || strContains (lowerStr u) "emission") = true)
    (hc : env.calcResult u = Except.ok calc_results) :
    composePrompt env u
      = ("Explain these carbon emission calculation results briefly and clearly: "
          ++ calc_results, ⟨[u], [], [], [], [], []⟩) := by
  unfold composePrompt invoke_calculation_agent
  simp [hk, hc]

/-- Keyword hit with a failed calculation: the generic guidance prompt is
composed and the trace still holds the single calculation call. -/
theorem composePrompt_pos_err {env : Env} {u e : String}
    (hk : (strContains (lowerStr u) "carbon" || strContains (lowerStr u) "emission") = true)
    (hc : env.calcResult u = Except.error e) :
    composePrompt env u
      = ("Provide general guidance about carbon emissions for " ++ u
          ++ ". Keep it brief.", ⟨[u], [], [], [], [], []⟩) := by
  unfold composePrompt invoke_calculation_agent
  simp [hk, hc]

/-- No keyword: the raw input is the prompt and nothing is called. -/
theorem composePrompt_neg {env : Env} {u : String}
    (hk : (strContains (lowerStr u) "carbon" || strContains (lowerStr u) "emission") = false) :
    composePrompt env u = (u, emptyTrace) := by
  unfold composePrompt
  simp [hk]

/-- The calculation calls of the composition step: exactly one on a keyword
hit, none otherwise. -/
theorem composePrompt_calcCalls (env : Env) (u : String) :
    (composePrompt env u).2.calcCalls
      = (if (strContains (lowerStr u) "carbon" || strContains (lowerStr u) "emission") = true
         then [u] else []) := by
  cases hk : (strContains (lowerStr u) "carbon" || strContains (lowerStr u) "emission") with
  | true =>
    rcases hc : env.calcResult u with e | t
    · rw [composePrompt_pos_err hk hc]; simp
    · rw [composePrompt_pos_ok hk hc]; simp
  | false => rw [composePrompt_neg hk]; simp [emptyTrace]

/-- The composition step touches no collaborator other than the calculation
Lambda. -/
theorem composePrompt_trace_rest (env : Env) (u : String) :
    (composePrompt env u).2.bedrockCalls = [] ∧ (composePrompt env u).2.queueAttempts = []
      ∧ (composePrompt env u).2.queuePublished = []
      ∧ (composePrompt env u).2.dynamoAttempts = []
      ∧ (composePrompt env u).2.dynamoWrites = [] := by
  cases hk : (strContains (lowerStr u) "carbon" || strContains (lowerStr u) "emission") with
  | true =>
    rcases hc : env.calcResult u with e | t
    · rw [composePrompt_pos_err hk hc]; exact ⟨rfl, rfl, rfl, rfl, rfl⟩
    · rw [composePrompt_pos_ok hk hc]; exact ⟨rfl, rfl, rfl, rfl, rfl⟩
  | false => rw [composePrompt_neg hk]; exact ⟨rfl, rfl, rfl, rfl, rfl⟩

/-- The throttle-aware invocation makes exactly one Bedrock call and touches
neither the calculation Lambda nor DynamoDB, whatever the outcome. -/
theorem invoke_bedrock_trace_shape (env : Env) (p c : String) :
    (invoke_bedrock_with_queue env p c).2.calcCalls = []
      ∧ (invoke_bedrock_with_queue env p c).2.bedrockCalls = [p]
      ∧ (invoke_bedrock_with_queue env p c).2.dynamoAttempts = []
      ∧ (invoke_bedrock_with_queue env p c).2.dynamoWrites = [] := by
  rcases hbr : env.bedrockResult p with e | t
  · cases ht : strContains e "ThrottlingException" with
    | false => rw [bedrock_other c hbr ht]; exact ⟨rfl, rfl, rfl, rfl⟩
    | true =>
      cases hs : env.sqsOk with
      | false => rw [bedrock_throttle_qfail c hbr ht hs]; exact ⟨rfl, rfl, rfl, rfl⟩
      | true => rw [bedrock_throttle_qok c hbr ht hs]; exact ⟨rfl, rfl, rfl, rfl⟩
  · rw [bedrock_ok c hbr]; exact ⟨rfl, rfl, rfl, rfl⟩

/-- `store_conversation` always attempts exactly the one item and lands it
exactly when DynamoDB succeeds. -/
theorem store_conversation_eq (env : Env) (conversation_id user_input response : String) :
    store_conversation env conversation_id user_input response
      = ⟨[], [], [], [],
         [⟨conversation_id, toString env.nowMs, user_input, response, "conversation"⟩],
         if env.dynamoOk then
           [⟨conversation_id, toString env.nowMs, user_input, response, "conversation"⟩]
         else []⟩ := by
  unfold store_conversation
  cases hd : env.dynamoOk <;> simp [hd]

/-- The three ways a request can fail validation: absent body (which parses to
the empty object), absent `input`, empty `input`.  All yield the 400 response
and the empty trace. -/
theorem handler_invalid_cases (env : Env) (idOpt : Option String) :
    lambda_handler env ⟨none⟩ = (resp400 "Input is required", emptyTrace)
      ∧ lambda_handler env ⟨some (Except.ok ⟨none, idOpt⟩)⟩
          = (resp400 "Input is required", emptyTrace)
      ∧ lambda_handler env ⟨some (Except.ok ⟨some "", idOpt⟩)⟩
          = (resp400 "Input is required", emptyTrace) :=
  ⟨rfl, rfl, rfl⟩

/-- A body that fails JSON parsing is caught by the outer handler and turned
into the 500 response, with no collaborator called. -/
theorem handler_parse_error (env : Env) (e : String) :
    lambda_handler env ⟨some (Except.error e)⟩ = (resp500 e, emptyTrace) := rfl

/-- The handler on a valid request whose inference step raises uncaught. -/
theorem handler_ok_err (env : Env) (u prompt e : String) (t1 t2 : Trace) (idOpt : Option String)
    (hu : ¬ u = "")
    (hcp : composePrompt env u = (prompt, t1))
    (hb : invoke_bedrock_with_queue env prompt (idOpt.getD (uuid4Str env.uuidSeed))
            = (Except.error e, t2)) :
    lambda_handler env ⟨some (Except.ok ⟨some u, idOpt⟩)⟩ = (resp500 e, Trace.app t1 t2) := by
  unfold lambda_handler
  simp [hu, hcp, hb]

/-- The handler on a valid request whose inference step returns a result. -/
theorem handler_ok_ok (env : Env) (u prompt : String) (result : InvokeResult) (t2 : Trace)
    (t1 : Trace) (idOpt : Option String)
    (hu : ¬ u = "")
    (hcp : composePrompt env u = (prompt, t1))
    (hb : invoke_bedrock_with_queue env prompt (idOpt.getD (uuid4Str env.uuidSeed))
            = (Except.ok result, t2)) :
    lambda_handler env ⟨some (Except.ok ⟨some u, idOpt⟩)⟩
      = (resp200 result.response (idOpt.getD (uuid4Str env.uuidSeed)) result.status,
         Trace.app (Trace.app t1 t2)
           (if result.status = Status.direct then
              store_conversation env (idOpt.getD (uuid4Str env.uuidSeed)) u result.response
            else emptyTrace)) := by
  unfold lambda_handler
  simp [hu, hcp, hb]

/-- Every handler response is one of the three literal response shapes. -/
theorem handler_shape (env : Env) (event : Event) :
    (∃ m, (lambda_handler env event).1 = resp400 m)
      ∨ (∃ m, (lambda_handler env event).1 = resp500 m)
      ∨ (∃ r c s, (lambda_handler env event).1 = resp200 r c s) := by
  rcases event with ⟨body⟩
  rcases body with _ | pb
  · exact Or.inl ⟨_, congrArg Prod.fst (handler_invalid_cases env none).1⟩
  rcases pb with e | ⟨iOpt, cOpt⟩
  · exact Or.inr (Or.inl ⟨e, congrArg Prod.fst (handler_parse_error env e)⟩)
  rcases iOpt with _ | u
  · exact Or.inl ⟨_, congrArg Prod.fst (handler_invalid_cases env cOpt).2.1⟩
  by_cases hu : u = ""
  · subst hu
    exact Or.inl ⟨_, congrArg Prod.fst (handler_invalid_cases env cOpt).2.2⟩
  cases hcp : composePrompt env u with
  | mk prompt t1 =>
    cases hr : invoke_bedrock_with_queue env prompt (cOpt.getD (uuid4Str env.uuidSeed)) with
    | mk res t2 =>
      cases res with
      | error e =>
        exact Or.inr (Or.inl ⟨e,
          congrArg Prod.fst (handler_ok_err env u prompt e t1 t2 cOpt hu hcp hr)⟩)
      | ok result =>
        exact Or.inr (Or.inr ⟨result.response, _, result.status,
          congrArg Prod.fst (handler_ok_ok env u prompt result t2 t1 cOpt hu hcp hr)⟩)

/-- The throttle-aware invocation reads only the Bedrock oracle, the SQS flag
and the clock from the environment. -/
theorem invoke_bedrock_congr (env env' : Env) (p c : String)
    (h1 : env'.bedrockResult = env.bedrockResult) (h2 : env'.sqsOk = env.sqsOk)
    (h3 : env'.nowMs = env.nowMs) :
    invoke_bedrock_with_queue env' p c = invoke_bedrock_with_queue env p c := by
  unfold invoke_bedrock_with_queue enqueue_request
  rw [h1, h2, h3]

/-- `store_conversation` reads only the DynamoDB flag and the clock. -/
theorem store_conversation_congr (env env' : Env) (c u r : String)
    (h2 : env'.dynamoOk = env.dynamoOk) (h3 : env'.nowMs = env.nowMs) :
    store_conversation env' c u r = store_conversation env c u r := by
  unfold store_conversation
  rw [h2, h3]

/-- C2: on a request whose parsed body carries input `u`, the DynamoDB put is
attempted if and only if the response body is a success tagged `direct`; in
that case exactly one record, holding the original input and the returned
response text, is attempted; on a `queued` success nothing is attempted or
written. -/
theorem c2_persist_iff_direct (env : Env) (u : String) (idOpt : Option String)
    (resp : Response) (tr : Trace)
    (h : lambda_handler env ⟨some (Except.ok ⟨some u, idOpt⟩)⟩ = (resp, tr)) :
    (tr.dynamoAttempts ≠ [] ↔ ∃ r c, resp.body = RespBody.success r c Status.direct)
      ∧ (∀ r c, resp.body = RespBody.success r c Status.direct →
          tr.dynamoAttempts = [⟨c, toString env.nowMs, u, r, "conversation"⟩])
      ∧ (∀ r c, resp.body = RespBody.success r c Status.queued →
          tr.dynamoAttempts = [] ∧ tr.dynamoWrites = []) := by
  by_cases hu : u = ""
  · subst hu
    rw [(handler_invalid_cases env idOpt).2.2] at h
    injection h with h1 h2
    subst h1; subst h2
    simp [resp400, emptyTrace]
  · cases hcp : composePrompt env u with
    | mk prompt t1 =>
      have ht1 := composePrompt_trace_rest env u
      rw [hcp] at ht1
      replace ht1 : t1.bedrockCalls = [] ∧ t1.queueAttempts = [] ∧ t1.queuePublished = []
          ∧ t1.dynamoAttempts = [] ∧ t1.dynamoWrites = [] := ht1
      cases hr : invoke_bedrock_with_queue env prompt (idOpt.getD (uuid4Str env.uuidSeed)) with
      | mk res t2 =>
        have ht2 := invoke_bedrock_trace_shape env prompt (idOpt.getD (uuid4Str env.uuidSeed))
        rw [hr] at ht2
        replace ht2 : t2.calcCalls = [] ∧ t2.bedrockCalls = [prompt]
            ∧ t2.dynamoAttempts = [] ∧ t2.dynamoWrites = [] := ht2
        cases res with
        | error e =>
          rw [handler_ok_err env u prompt e t1 t2 idOpt hu hcp hr] at h
          injection h with h1 h2
          subst h1; subst h2
          simp [resp500, Trace.app, ht1.2.2.2.1, ht1.2.2.2.2, ht2.2.2.1, ht2.2.2.2]
        | ok result =>
          obtain ⟨st, text⟩ := result
          rw [handler_ok_ok env u prompt ⟨st, text⟩ t2 t1 idOpt hu hcp hr] at h
          cases st with
          | direct =>
            rw [store_conversation_eq] at h
            injection h with h1 h2
            subst h1; subst h2
            refine ⟨by simp [resp200, Trace.app, ht1.2.2.2.1, ht2.2.2.1], ?_, ?_⟩
            · intro r c hrc
              simp [resp200] at hrc
              obtain ⟨rfl, rfl⟩ := hrc
              simp [Trace.app, ht1.2.2.2.1, ht2.2.2.1]
            · intro r c hrc
              simp [resp200] at hrc
          | queued =>
            injection h with h1 h2
            subst h1; subst h2
            refine ⟨by simp [resp200, Trace.app, emptyTrace, ht1.2.2.2.1, ht2.2.2.1], ?_, ?_⟩
            · intro r c hrc
              simp [resp200] at hrc
            · intro r c hrc
              simp [Trace.app, emptyTrace, ht1.2.2.2.1, ht1.2.2.2.2, ht2.2.2.1, ht2.2.2.2]

/-- C2 witness: in the all-success world a direct exchange lands exactly one
record holding the question and the answer. -/
theorem c2_persist_iff_direct_witness :
    (lambda_handler envDirect ⟨some (Except.ok ⟨some "Hello", some "cid-1"⟩)⟩).2.dynamoAttempts
      = [⟨"cid-1", "5", "Hello", "MODEL ANSWER", "conversation"⟩] :=
  (c2_persist_iff_direct envDirect "Hello" (some "cid-1") _ _ rfl).2.1
    "MODEL ANSWER" "cid-1" (by decide)

/-- C3: the calculation Lambda is invoked, exactly once and with the raw input
as query, if and only if the lowercased input contains `"carbon"` or
`"emission"`; the single Bedrock prompt is then the composition result, and
without a keyword hit it is the raw input itself with no calculation call. -/
theorem c3_keyword_routing (env : Env) (u : String) (idOpt : Option String)
    (hu : ¬ u = "") :
    ((strContains (lowerStr u) "carbon" || strContains (lowerStr u) "emission") = true →
      (lambda_handler env ⟨some (Except.ok ⟨some u, idOpt⟩)⟩).2.calcCalls = [u]
        ∧ (lambda_handler env ⟨some (Except.ok ⟨some u, idOpt⟩)⟩).2.bedrockCalls
            = [(composePrompt env u).1])
      ∧ ((strContains (lowerStr u) "carbon" || strContains (lowerStr u) "emission") = false →
          (lambda_handler env ⟨some (Except.ok ⟨some u, idOpt⟩)⟩).2.calcCalls = []
            ∧ (lambda_handler env ⟨some (Except.ok ⟨some u, idOpt⟩)⟩).2.bedrockCalls = [u]) := by
  have key : (lambda_handler env ⟨some (Except.ok ⟨some u, idOpt⟩)⟩).2.calcCalls
        = (composePrompt env u).2.calcCalls
      ∧ (lambda_handler env ⟨some (Except.ok ⟨some u, idOpt⟩)⟩).2.bedrockCalls
        = [(composePrompt env u).1] := by
    cases hcp : composePrompt env u with
    | mk prompt t1 =>
      have ht1 := composePrompt_trace_rest env u
      rw [hcp] at ht1
      replace ht1 : t1.bedrockCalls = [] ∧ t1.queueAttempts = [] ∧ t1.queuePublished = []
          ∧ t1.dynamoAttempts = [] ∧ t1.dynamoWrites = [] := ht1
      cases hr : invoke_bedrock_with_queue env prompt (idOpt.getD (uuid4Str env.uuidSeed)) with
      | mk res t2 =>
        have ht2 := invoke_bedrock_trace_shape env prompt (idOpt.getD (uuid4Str env.uuidSeed))
        rw [hr] at ht2
        replace ht2 : t2.calcCalls = [] ∧ t2.bedrockCalls = [prompt]
            ∧ t2.dynamoAttempts = [] ∧ t2.dynamoWrites = [] := ht2
        cases res with
        | error e =>
          rw [handler_ok_err env u prompt e t1 t2 idOpt hu hcp hr]
          simp [Trace.app, ht1.1, ht2.1, ht2.2.1]
        | ok result =>
          rw [handler_ok_ok env u prompt result t2 t1 idOpt hu hcp hr]
          cases hst : result.status <;>
            simp [hst, Trace.app, emptyTrace, store_conversation_eq, ht1.1, ht2.1, ht2.2.1]
  constructor
  · intro hk
    refine ⟨?_, key.2⟩
    rw [key.1, composePrompt_calcCalls, if_pos hk]
  · intro hk
    refine ⟨?_, ?_⟩
    · rw [key.1, composePrompt_calcCalls, if_neg (by simp [hk])]
    · rw [key.2, composePrompt_neg hk]

/-- C3 witness: a keyword input triggers exactly one calculation call; a
keyword-free input triggers none. -/
theorem c3_keyword_routing_witness :
    (lambda_handler envDirect
        ⟨some (Except.ok ⟨some "My CARBON footprint", some "cid-1"⟩)⟩).2.calcCalls
      = ["My CARBON footprint"]
    ∧ (lambda_handler envDirect ⟨some (Except.ok ⟨some "Hello", some "cid-1"⟩)⟩).2.calcCalls
        = [] :=
  ⟨((c3_keyword_routing envDirect "My CARBON footprint" (some "cid-1") (by decide)).1
      (by decide)).1,
   ((c3_keyword_routing envDirect "Hello" (some "cid-1") (by decide)).2 (by decide)).1⟩

/-- C4: on the calculation-augmented path, a calculation failure still leads
to exactly one Bedrock call, whose prompt is the generic guidance text built
from the user's input; and the entire handler outcome is the same whatever
the text of the calculation error, so no calculation error can surface in the
final response. -/
theorem c4_calc_failure_degrades (env env' : Env) (u e e' : String) (idOpt : Option String)
    (hk : (strContains (lowerStr u) "carbon" || strContains (lowerStr u) "emission") = true)
    (hu : ¬ u = "")
    (hc : env.calcResult u = Except.error e)
    (hc' : env'.calcResult u = Except.error e')
    (hbr : env'.bedrockResult = env.bedrockResult)
    (hsq : env'.sqsOk = env.sqsOk)
    (hdy : env'.dynamoOk = env.dynamoOk)
    (hnw : env'.nowMs = env.nowMs)
    (hus : env'.uuidSeed = env.uuidSeed) :
    (lambda_handler env ⟨some (Except.ok ⟨some u, idOpt⟩)⟩).2.bedrockCalls
      = ["Provide general guidance about carbon emissions for " ++ u ++ ". Keep it brief."]
    ∧ lambda_handler env' ⟨some (Except.ok ⟨some u, idOpt⟩)⟩
        = lambda_handler env ⟨some (Except.ok ⟨some u, idOpt⟩)⟩ := by
  have hcp := composePrompt_pos_err hk hc
  have hcp' := composePrompt_pos_err hk hc'
  cases hr : invoke_bedrock_with_queue env
      ("Provide general guidance about carbon emissions for " ++ u ++ ". Keep it brief.")
      (idOpt.getD (uuid4Str env.uuidSeed)) with
  | mk res t2 =>
    have ht2 := invoke_bedrock_trace_shape env
        ("Provide general guidance about carbon emissions for " ++ u ++ ". Keep it brief.")
        (idOpt.getD (uuid4Str env.uuidSeed))
    rw [hr] at ht2
    replace ht2 : t2.calcCalls = [] ∧ t2.bedrockCalls
        = ["Provide general guidance about carbon emissions for " ++ u ++ ". Keep it brief."]
        ∧ t2.dynamoAttempts = [] ∧ t2.dynamoWrites = [] := ht2
    have hr' : invoke_bedrock_with_queue env'
        ("Provide general guidance about carbon emissions for " ++ u ++ ". Keep it brief.")
        (idOpt.getD (uuid4Str env'.uuidSeed)) = (res, t2) := by
      rw [hus, invoke_bedrock_congr env env' _ _ hbr hsq hnw]
      exact hr
    cases res with
    | error e2 =>
      rw [handler_ok_err env u _ e2 ⟨[u], [], [], [], [], []⟩ t2 idOpt hu hcp hr,
          handler_ok_err env' u _ e2 ⟨[u], [], [], [], [], []⟩ t2 idOpt hu hcp' hr']
      exact ⟨by simp [Trace.app, ht2.2.1], rfl⟩
    | ok result =>
      rw [handler_ok_ok env u _ result t2 ⟨[u], [], [], [], [], []⟩ idOpt hu hcp hr,
          handler_ok_ok env' u _ result t2 ⟨[u], [], [], [], [], []⟩ idOpt hu hcp' hr']
      refine ⟨by cases hst : result.status <;>
        simp [hst, Trace.app, emptyTrace, store_conversation_eq, ht2.2.1], ?_⟩
      rw [hus]
      cases hst : result.status with
      | direct =>
        simp [hst,
          store_conversation_congr env env' (idOpt.getD (uuid4Str env.uuidSeed)) u
            result.response hdy hnw]
      | queued => simp [hst]

/-- C4 witness: two worlds with different calculation errors produce the same
outcome, and the Bedrock prompt is the generic guidance text. -/
theorem c4_calc_failure_degrades_witness :
    (lambda_handler envCalcFailA
        ⟨some (Except.ok ⟨some "my carbon use", some "cid-1"⟩)⟩).2.bedrockCalls
      = ["Provide general guidance about carbon emissions for my carbon use. Keep it brief."]
    ∧ lambda_handler envCalcFailB ⟨some (Except.ok ⟨some "my carbon use", some "cid-1"⟩)⟩
        = lambda_handler envCalcFailA ⟨some (Except.ok ⟨some "my carbon use", some "cid-1"⟩)⟩ :=
  c4_calc_failure_degrades envCalcFailA envCalcFailB "my carbon use"
    "Task timed out" "AccessDenied" (some "cid-1") (by decide) (by decide)
    rfl rfl rfl rfl rfl rfl rfl

/-- C5: a parsed body with an empty or absent `input` (including the absent
request body, which defaults to the empty JSON object) yields the 400
validation response carrying its error message, and no collaborator is
called. -/
theorem c5_validation_no_side_effects (env : Env) (idOpt : Option String) :
    lambda_handler env ⟨some (Except.ok ⟨some "", idOpt⟩)⟩
        = (resp400 "Input is required", emptyTrace)
      ∧ lambda_handler env ⟨some (Except.ok ⟨none, idOpt⟩)⟩
          = (resp400 "Input is required", emptyTrace)
      ∧ lambda_handler env ⟨none⟩ = (resp400 "Input is required", emptyTrace) :=
  ⟨(handler_invalid_cases env idOpt).2.2, (handler_invalid_cases env idOpt).2.1,
   (handler_invalid_cases env idOpt).1⟩

/-- On a 200 response the returned `conversationId` is the supplied one, or
the freshly rendered UUID when the field was absent. -/
theorem handler_status200_convId (env : Env) (u : String) (idOpt : Option String)
    (resp : Response) (tr : Trace)
    (h : lambda_handler env ⟨some (Except.ok ⟨some u, idOpt⟩)⟩ = (resp, tr))
    (h200 : resp.statusCode = 200) :
    resp.body.convId = some (idOpt.getD (uuid4Str env.uuidSeed)) := by
  by_cases hu : u = ""
  · subst hu
    rw [(handler_invalid_cases env idOpt).2.2] at h
    injection h with h1 h2
    subst h1
    simp [resp400] at h200
  · cases hcp : composePrompt env u with
    | mk prompt t1 =>
      cases hr : invoke_bedrock_with_queue env prompt (idOpt.getD (uuid4Str env.uuidSeed)) with
      | mk res t2 =>
        cases res with
        | error e =>
          rw [handler_ok_err env u prompt e t1 t2 idOpt hu hcp hr] at h
          injection h with h1 h2
          subst h1
          simp [resp500] at h200
        | ok result =>
          rw [handler_ok_ok env u prompt result t2 t1 idOpt hu hcp hr] at h
          injection h with h1 h2
          subst h1
          simp [resp200, RespBody.convId]

/-- C6: on a successful (200) request, an absent `conversationId` is answered
with the freshly generated, non-empty UUID rendering, and a supplied
`conversationId` is echoed back unchanged. -/
theorem c6_conversation_id (env : Env) (u : String) (idOpt : Option String)
    (resp : Response) (tr : Trace)
    (h : lambda_handler env ⟨some (Except.ok ⟨some u, idOpt⟩)⟩ = (resp, tr))
    (h200 : resp.statusCode = 200) :
    (idOpt = none →
      resp.body.convId = some (uuid4Str env.uuidSeed) ∧ uuid4Str env.uuidSeed ≠ "")
      ∧ (∀ c, idOpt = some c → resp.body.convId = some c) := by
  have hc := handler_status200_convId env u idOpt resp tr h h200
  constructor
  · intro hn
    subst hn
    exact ⟨by simpa using hc, uuid4Str_ne_empty env.uuidSeed⟩
  · intro c hs
    subst hs
    simpa using hc

/-- C6 witness: with no `conversationId` supplied, the all-success world
returns the rendered UUID of the seed, which is non-empty. -/
theorem c6_conversation_id_witness :
    ((lambda_handler envDirect ⟨some (Except.ok ⟨some "Hello", none⟩)⟩).1.statusCode = 200)
      ∧ ((lambda_handler envDirect ⟨some (Except.ok ⟨some "Hello", none⟩)⟩).1.body.convId
            = some (uuid4Str 7)
          ∧ uuid4Str 7 ≠ "") :=
  ⟨by decide, (c6_conversation_id envDirect "Hello" none _ _ rfl (by decide)).1 rfl⟩

/-- C7: the handler's response — status code, headers and body — is identical
whether the DynamoDB put succeeds or fails, and so is the attempted write;
persistence failure is absorbed without changing what the caller sees. -/
theorem c7_persistence_failure_absorbed (env : Env) (event : Event) (b : Bool) :
    (lambda_handler (withDynamo env b) event).1 = (lambda_handler env event).1
      ∧ (lambda_handler (withDynamo env b) event).2.dynamoAttempts
          = (lambda_handler env event).2.dynamoAttempts := by
  rcases event with ⟨body⟩
  rcases body with _ | pb
  · exact ⟨rfl, rfl⟩
  rcases pb with e | ⟨iOpt, cOpt⟩
  · exact ⟨rfl, rfl⟩
  rcases iOpt with _ | u
  · exact ⟨rfl, rfl⟩
  by_cases hu : u = ""
  · subst hu; exact ⟨rfl, rfl⟩
  cases hcp : composePrompt env u with
  | mk prompt t1 =>
    have hcp' : composePrompt (withDynamo env b) u = (prompt, t1) := hcp
    cases hr : invoke_bedrock_with_queue env prompt (cOpt.getD (uuid4Str env.uuidSeed)) with
    | mk res t2 =>
      have hr' : invoke_bedrock_with_queue (withDynamo env b) prompt
          (cOpt.getD (uuid4Str (withDynamo env b).uuidSeed)) = (res, t2) := hr
      cases res with
      | error e =>
        rw [handler_ok_err env u prompt e t1 t2 cOpt hu hcp hr,
            handler_ok_err (withDynamo env b) u prompt e t1 t2 cOpt hu hcp' hr']
        exact ⟨rfl, rfl⟩
      | ok result =>
        rw [handler_ok_ok env u prompt result t2 t1 cOpt hu hcp hr,
            handler_ok_ok (withDynamo env b) u prompt result t2 t1 cOpt hu hcp' hr']
        refine ⟨rfl, ?_⟩
        cases hst : result.status with
        | direct => simp [hst, Trace.app, store_conversation_eq, withDynamo]
        | queued => simp [hst, Trace.app, emptyTrace]

/-- C8: the permissive cross-origin header is on the response exactly when the
response is the 200 success; the 400 and 500 responses carry only the content
type header. -/
theorem c8_cors_iff_success (env : Env) (event : Event) :
    corsHeader ∈ (lambda_handler env event).1.headers
      ↔ (lambda_handler env event).1.statusCode = 200 := by
  rcases handler_shape env event with ⟨m, hm⟩ | ⟨m, hm⟩ | ⟨r, c, s, hm⟩ <;> rw [hm]
  · simp [resp400, corsHeader, jsonHeader]
  · simp [resp500, corsHeader, jsonHeader]
  · simp [resp200, corsHeader, jsonHeader]

/-- C9: a `conversationId` supplied as the empty string is treated as
supplied: on a 200 response the empty string is echoed back, and it differs
from the identifier the generator would have produced. -/
theorem c9_empty_id_echoed (env : Env) (u : String) (resp : Response) (tr : Trace)
    (h : lambda_handler env ⟨some (Except.ok ⟨some u, some ""⟩)⟩ = (resp, tr))
    (h200 : resp.statusCode = 200) :
    resp.body.convId = some "" ∧ "" ≠ uuid4Str env.uuidSeed := by
  have hc := handler_status200_convId env u (some "") resp tr h h200
  exact ⟨by simpa using hc, (uuid4Str_ne_empty env.uuidSeed).symm⟩

/-- C9 witness: the empty supplied identifier is echoed in the all-success
world. -/
theorem c9_empty_id_echoed_witness :
    ((lambda_handler envDirect ⟨some (Except.ok ⟨some "Hello", some ""⟩)⟩).1.statusCode = 200)
      ∧ ((lambda_handler envDirect ⟨some (Except.ok ⟨some "Hello", some ""⟩)⟩).1.body.convId
            = some ""
          ∧ "" ≠ uuid4Str 7) :=
  ⟨by decide, c9_empty_id_echoed envDirect "Hello" _ _ rfl (by decide)⟩

/-- C10: every handler run returns a structured response whose status code is
200, 400 or 500 (the embedding is a total function, mirroring the catch-all
handler), and a body that fails JSON parsing yields the 500 response carrying
the parse error, with no collaborator called. -/
theorem c10_total_status_codes (env : Env) (event : Event) :
    ((lambda_handler env event).1.statusCode = 200
      ∨ (lambda_handler env event).1.statusCode = 400
      ∨ (lambda_handler env event).1.statusCode = 500)
    ∧ (∀ e, lambda_handler env ⟨some (Except.error e)⟩ = (resp500 e, emptyTrace)) := by
  constructor
  · rcases handler_shape env event with ⟨m, hm⟩ | ⟨m, hm⟩ | ⟨r, c, s, hm⟩ <;> rw [hm]
    · exact Or.inr (Or.inl rfl)
    · exact Or.inr (Or.inr rfl)
    · exact Or.inl rfl
  · intro e
    exact handler_parse_error env e
